import Mathlib

/-
Verification development for the Jarvis Chat front end
(src/frontend/src/App.jsx).

The component keeps three pieces of React state and one ref:
  messages                — the transcript, rendered as a list of strings;
  isListening             — the busy/listening flag;
  generatedWebsiteUrlRef  — a ref holding the generated-site URL (never written);
plus an ambient speech handle probed at mount time.

The embedding has two layers.

Body layer: the code inside each function, as written. `handleSendMessage`
has a single suspension point, the `await generateWebsiteAsync()` on the line
`if (lowerCaseMessage.includes("generate website")) await generateWebsiteAsync();`
so its body is split into `submitPhase1` (everything up to and including the
task invocation) and `submitResume` (the catch/finally code that runs once
the awaited task settles), composed in `handleSendMessage`. The body of
`toggleListening` is the short-circuit `speech && (speech.stop(), setIsListening(false))`.
Since the controller is specified against the task contract (success with an
optional URL, or failure), the body is parameterised by a `TaskOutcome`.

Call layer: what a call of each function actually does. App.jsx is an ES
module and therefore strict-mode code, where a function declaration inside a
block is scoped to that block. The call of `isWebsiteGenerationRequest` on
the first line of `handleSendMessage` (line 32) is resolved against the
scopes enclosing that line, and the declaration (line 40) sits inside the
try block, which that first line precedes, so resolution fails; likewise the
body of `toggleListening` reads the identifier `speech`, which is bound only
as a local of initSpeech inside the mount effect. `handleSendMessageStrict`
and `toggleListeningStrict` model a call with this name resolution made
explicit: the needed identifier is looked up in the list of names actually
bound in the enclosing scopes, an unresolved name throws a ReferenceError
before any state is touched, and a resolved name would run the body layer.
-/

/-- Character-list version of the test whether `n` is an initial segment of
`h`, comparing characters pairwise. -/
def charsStartWith : List Char → List Char → Bool
  | [], _ => true
  | _ :: _, [] => false
  | n :: ns, h :: hs => n == h && charsStartWith ns hs

/-- Character-list version of contiguous-substring occurrence: `n` occurs
somewhere inside `h`. -/
def charsContain (n : List Char) : List Char → Bool
  | [] => charsStartWith n []
  | h :: hs => charsStartWith n (h :: hs) || charsContain n hs

/-- JS `String.prototype.includes(needle)`, and equally a regular-expression
`test` against an alternation of literal phrases: `needle` occurs in `hay`
as a contiguous substring. -/
def strIncludes (hay needle : String) : Bool :=
  charsContain needle.data hay.data

/-- Mathematical statement of substring occurrence, written independently of
the executable matcher so the two can be compared: the character data of
`hay` splits as a left part, the needle, and a right part. -/
def containsSubstring (hay needle : String) : Prop :=
  ∃ l r, hay.data = l ++ needle.data ++ r

/-- JS `String.prototype.toLowerCase()` on the character data. -/
def jsToLowerCase (s : String) : String :=
  String.mk (s.data.map Char.toLower)

/-- The intent classifier of App.jsx:
`function isWebsiteGenerationRequest(message) { return /build website|create website/.test(message); }`.
The regular expression is an alternation of the two literal phrases, so the
test holds exactly when one of them occurs as a (case-sensitive) substring. -/
def isWebsiteGenerationRequest (message : String) : Bool :=
  strIncludes message "build website" || strIncludes message "create website"

/-- The component state of App.jsx: the `messages` list, the `isListening`
flag, the current value of `generatedWebsiteUrlRef`, a count of
`console.error` logs, the number of generation tasks currently awaited, and
whether the ambient speech handle is present. -/
structure AppState where
  messages : List String
  isListening : Bool
  generatedWebsiteUrl : Option String
  errorLogs : Nat
  inFlight : Nat
  speechAvailable : Bool
  deriving DecidableEq

/-- The state at mount: empty transcript, not listening, no generated URL,
nothing logged, no task in flight, speech handle not started. -/
def initialState : AppState :=
  { messages := [], isListening := false, generatedWebsiteUrl := none,
    errorLogs := 0, inFlight := 0, speechAvailable := false }

/-- Settlement of the awaited generation task: it either resolves
(optionally carrying a URL, per the task contract) or rejects. -/
inductive TaskOutcome where
  | success (url : Option String)
  | failure
  deriving DecidableEq

/-- The placeholder task of App.jsx. The body of `generateWebsiteAsync`
only calls `consoleWarn`, an identifier bound nowhere, so a real call
rejects with a ReferenceError; this constant records the nominal settlement
the placeholder comment announces — resolve with no value, never a URL —
and is used below only as an arbitrary task argument, by statements whose
truth does not depend on which settlement is chosen. -/
def generateWebsiteAsync : TaskOutcome :=
  TaskOutcome.success none

/-- Where a call of `handleSendMessage` stands after running up to its only
suspension point: either it already returned (carrying whether the task was
invoked), or it is suspended at `await generateWebsiteAsync()`. -/
inductive SubmitPoint where
  | done (s : AppState) (invoked : Bool)
  | suspended (s : AppState)
  deriving DecidableEq

/-- First phase of the body of `handleSendMessage(messageText)` as written:
the early return when `isWebsiteGenerationRequest` rejects the text, then
inside the try block `setIsListening(true)`, then the check whether the
lowercased text contains "generate website"; if it does, the task is
started and the call suspends at the await, otherwise the try block ends
and the finally clause runs `setIsListening(false)` immediately. This is
the body layer; whether a call ever reaches it is the scope question
settled in `handleSendMessageStrict`. -/
def submitPhase1 (s : AppState) (messageText : String) : SubmitPoint :=
  if !isWebsiteGenerationRequest messageText then SubmitPoint.done s false
  else
    let s1 := { s with isListening := true }
    if strIncludes (jsToLowerCase messageText) "generate website" then
      SubmitPoint.suspended { s1 with inFlight := s1.inFlight + 1 }
    else
      SubmitPoint.done { s1 with isListening := false } false

/-- Resumption of `handleSendMessage` once the awaited task settles: the
task leaves flight; on rejection the catch clause logs the error via
`console.error` once; in both cases the finally clause runs
`setIsListening(false)`. The resolved value of the task is discarded — the
source line is `await generateWebsiteAsync();` with no assignment — so
`generatedWebsiteUrl` and `messages` are untouched. -/
def submitResume (task : TaskOutcome) (s : AppState) : AppState :=
  match task with
  | TaskOutcome.success _ =>
      { s with inFlight := s.inFlight - 1, isListening := false }
  | TaskOutcome.failure =>
      { s with inFlight := s.inFlight - 1, errorLogs := s.errorLogs + 1,
               isListening := false }

/-- The whole body of `handleSendMessage(messageText)` run sequentially,
with the awaited task settling as `task`. Returns the final state and
whether `generateWebsiteAsync` was invoked. This is the body layer; the
semantics of an actual call is `handleSendMessageStrict`. -/
def handleSendMessage (task : TaskOutcome) (s : AppState) (messageText : String) :
    AppState × Bool :=
  match submitPhase1 s messageText with
  | SubmitPoint.done s1 invoked => (s1, invoked)
  | SubmitPoint.suspended s1 => (submitResume task s1, true)

/-- The body of `toggleListening` of App.jsx:
`speech && (speech.stop(), setIsListening(false))`.
Its state effect under a resolvable speech reference: when the handle is
present the capture is stopped and the flag cleared, otherwise the
short-circuit makes the call do nothing. It never touches `messages`,
`generatedWebsiteUrl` or the logs. This is the body layer; the semantics of
an actual call — where the identifier `speech` does not resolve at all — is
`toggleListeningStrict`. -/
def toggleListening (s : AppState) : AppState :=
  if s.speechAvailable then { s with isListening := false } else s

/-- One user-visible operation on the controller: a text submission (with
the settlement its task would have) or a listening toggle. -/
inductive Op where
  | submit (messageText : String) (task : TaskOutcome)
  | toggle

/-- Effect of one operation on the component state. -/
def stepOp (s : AppState) : Op → AppState
  | Op.submit messageText task => (handleSendMessage task s messageText).1
  | Op.toggle => toggleListening s

/-- Effect of a finite sequence of operations, run left to right. -/
def runOps (s : AppState) : List Op → AppState
  | [] => s
  | op :: ops => runOps (stepOp s op) ops

/-- A JavaScript error: the only kind the call layer produces is a
ReferenceError naming the identifier that failed to resolve. -/
inductive JsError where
  | referenceError (ident : String)
  deriving DecidableEq

/-- What a call of the async submit function does, observed from outside:
it either resolves, reporting whether the generation task was invoked, or
rejects with an error. -/
inductive SubmitResult where
  | resolved (invoked : Bool)
  | rejected (err : JsError)
  deriving DecidableEq

/-- The identifiers bound in the scopes enclosing the body of the App
component when its handlers run: the module scope (the React imports and
the App declaration, plus ambient browser globals) and the App function
body (its state hooks, ref and handler consts). Neither
"isWebsiteGenerationRequest" — block-scoped to the try block of
handleSendMessage, entered only after the line-32 call — nor "speech" — a
let local of initSpeech inside the mount effect — is among them. -/
def appScope : List String :=
  ["React", "useState", "useEffect", "useRef", "App",
   "window", "console", "navigator",
   "messages", "setMessages", "input", "setInput",
   "isListening", "setIsListening", "generatedWebsiteUrlRef",
   "toggleListening", "handleSendMessage", "speakText",
   "generateWebsiteAsync"]

/-- The scopes enclosing line 32, the first line of the body of
handleSendMessage: the App scopes plus the function parameter. -/
def scopeAtLine32 : List String :=
  "messageText" :: appScope

/-- The scopes enclosing line 28, the body of toggleListening: the App
scopes (the callback has no parameters). -/
def scopeAtLine28 : List String :=
  appScope

/-- Identifier lookup against a scope chain flattened to the list of names
it binds. -/
def inScope (env : List String) (ident : String) : Bool :=
  env.contains ident

/-- A call of `handleSendMessage` as the strict-mode module actually runs
it: the call of `isWebsiteGenerationRequest` at line 32 resolves its name
against the scopes enclosing that line. If the name resolved, the body
layer `handleSendMessage` would run and the call would resolve with its
outcome; since the declaration at line 40 is block-scoped to the not yet
entered try block, resolution fails and the async function rejects with a
ReferenceError before the try block — the state untouched, the flag never
raised, the task never invoked, nothing logged. -/
def handleSendMessageStrict (task : TaskOutcome) (s : AppState) (messageText : String) :
    AppState × SubmitResult :=
  if inScope scopeAtLine32 "isWebsiteGenerationRequest" then
    ((handleSendMessage task s messageText).1,
      SubmitResult.resolved (handleSendMessage task s messageText).2)
  else
    (s, SubmitResult.rejected (JsError.referenceError "isWebsiteGenerationRequest"))

/-- A call of `toggleListening` as the module actually runs it: the body
reads the identifier `speech`, resolved against the scopes enclosing line
28. Were it bound, the body layer `toggleListening` would run; since it is
bound nowhere there, the call throws a ReferenceError and the state is
untouched. -/
def toggleListeningStrict (s : AppState) : AppState × Option JsError :=
  if inScope scopeAtLine28 "speech" then
    (toggleListening s, none)
  else
    (s, some (JsError.referenceError "speech"))

/-- Effect of one operation on the component state under the call-layer
semantics. -/
def stepOpStrict (s : AppState) : Op → AppState
  | Op.submit messageText task => (handleSendMessageStrict task s messageText).1
  | Op.toggle => (toggleListeningStrict s).1

/-- Effect of a finite sequence of operations under the call-layer
semantics, run left to right. -/
def runOpsStrict (s : AppState) : List Op → AppState
  | [] => s
  | op :: ops => runOpsStrict (stepOpStrict s op) ops

theorem charsStartWith_iff (n : List Char) : ∀ h : List Char,
    charsStartWith n h = true ↔ ∃ r, h = n ++ r := by
  induction n with
  | nil =>
      intro h
      simp [charsStartWith]
  | cons c cs ih =>
      intro h
      cases h with
      | nil =>
          simp [charsStartWith]
      | cons d ds =>
          simp only [charsStartWith, Bool.and_eq_true, beq_iff_eq, ih ds]
          constructor
          · rintro ⟨rfl, r, rfl⟩
            exact ⟨r, rfl⟩
          · rintro ⟨r, hr⟩
            rw [List.cons_append] at hr
            injection hr with h1 h2
            exact ⟨h1.symm, r, h2⟩

theorem charsContain_iff (n : List Char) : ∀ h : List Char,
    charsContain n h = true ↔ ∃ l r, h = l ++ n ++ r := by
  intro h
  induction h with
  | nil =>
      simp only [charsContain, charsStartWith_iff]
      constructor
      · rintro ⟨r, hr⟩
        exact ⟨[], r, hr⟩
      · rintro ⟨l, r, hr⟩
        have h1 := List.append_eq_nil.mp hr.symm
        have h2 := List.append_eq_nil.mp h1.1
        exact ⟨r, by simp [h2.2, h1.2]⟩
  | cons c hs ih =>
      simp only [charsContain, Bool.or_eq_true, charsStartWith_iff, ih]
      constructor
      · rintro (⟨r, hr⟩ | ⟨l, r, hr⟩)
        · exact ⟨[], r, hr⟩
        · exact ⟨c :: l, r, by rw [hr]; rfl⟩
      · rintro ⟨l, r, hr⟩
        cases l with
        | nil => exact Or.inl ⟨r, hr⟩
        | cons d l2 =>
            rw [List.cons_append, List.cons_append] at hr
            injection hr with h1 h2
            exact Or.inr ⟨l2, r, h2⟩

theorem strIncludes_iff (hay needle : String) :
    strIncludes hay needle = true ↔ containsSubstring hay needle :=
  charsContain_iff needle.data hay.data

/-- C1 (corrected): the classifier `isWebsiteGenerationRequest` accepts a
text exactly when it contains "build website" or "create website" as a
case-sensitive contiguous substring; "generate website" is not one of its
triggers and matching is not case-insensitive. -/
theorem C1_trigger_set (t : String) :
    isWebsiteGenerationRequest t = true ↔
      (containsSubstring t "build website" ∨ containsSubstring t "create website") := by
  unfold isWebsiteGenerationRequest
  rw [Bool.or_eq_true, strIncludes_iff, strIncludes_iff]

/-- C1 counterexample: the claim says any text containing the trigger
phrase "generate website", or a case variant of a trigger, is classified
true; the classifier returns false on "generate website" and on
"Create Website", while "create website" shows a genuinely accepted text. -/
theorem C1_counterexample :
    isWebsiteGenerationRequest "generate website" = false ∧
    isWebsiteGenerationRequest "Create Website" = false ∧
    isWebsiteGenerationRequest "create website" = true := by
  decide

/-- C2 (amended): submit never invokes the generation task runner for any
text: the classifier reference at line 32 does not resolve (the declaration
is block-scoped to the try block), so every call of handleSendMessage
rejects with a ReferenceError before the try block, leaving the state
untouched — in particular "please create website for me" does not start the
task, and trivially no text classified None starts it. -/
theorem C2_never_invokes (task : TaskOutcome) (s : AppState) (t : String) :
    handleSendMessageStrict task s t
      = (s, SubmitResult.rejected (JsError.referenceError "isWebsiteGenerationRequest")) := by
  have h : inScope scopeAtLine32 "isWebsiteGenerationRequest" = false := by decide
  simp [handleSendMessageStrict, h]

/-- C2 counterexample: "please create website for me" is classified as a
website-generation request, yet submitting it does not start the generation
task — the call rejects at line 32 with nothing invoked — against the
claimed equivalence and the claimed behaviour of this very input. -/
theorem C2_counterexample :
    isWebsiteGenerationRequest "please create website for me" = true ∧
    (handleSendMessageStrict generateWebsiteAsync initialState
        "please create website for me")
      = (initialState,
          SubmitResult.rejected (JsError.referenceError "isWebsiteGenerationRequest")) := by
  decide

/-- C3 (confirmed): from a non-busy state, any submission — whatever text
and whatever the settlement of the generation task — ends with the
listening flag false: command paths clear it in the finally clause and
non-command paths never raise it. -/
theorem C3_listening_restored (task : TaskOutcome) (s : AppState) (t : String)
    (h : s.isListening = false) :
    ((handleSendMessage task s t).1).isListening = false := by
  cases hb : isWebsiteGenerationRequest t with
  | false => simpa [handleSendMessage, submitPhase1, hb] using h
  | true =>
      cases hg : strIncludes (jsToLowerCase t) "generate website" with
      | false => simp [handleSendMessage, submitPhase1, hb, hg]
      | true =>
          cases task <;>
            simp [handleSendMessage, submitPhase1, submitResume, hb, hg]

/-- C3 witness: the theorem applied at the initial state, the text "hello"
and a failing task. -/
theorem C3_witness :
    initialState.isListening = false ∧
    ((handleSendMessage TaskOutcome.failure initialState "hello").1).isListening = false :=
  ⟨rfl, C3_listening_restored TaskOutcome.failure initialState "hello" rfl⟩

/-- Even the body layer never performs the round trip the spec asks for: on
a successful task the awaited result has no assignment,
`generatedWebsiteUrlRef` is never written, and `setMessages` is never
called, so the stored URL and the transcript are exactly what they were
before. Recorded in support of the C4 divergence. -/
theorem submitBody_result_discarded (u : Option String) (s : AppState) (t : String) :
    ((handleSendMessage (TaskOutcome.success u) s t).1).generatedWebsiteUrl
        = s.generatedWebsiteUrl ∧
    ((handleSendMessage (TaskOutcome.success u) s t).1).messages = s.messages := by
  cases hb : isWebsiteGenerationRequest t with
  | false => simp [handleSendMessage, submitPhase1, hb]
  | true =>
      cases hg : strIncludes (jsToLowerCase t) "generate website" with
      | false => simp [handleSendMessage, submitPhase1, hb, hg]
      | true => simp [handleSendMessage, submitPhase1, submitResume, hb, hg]

/-- C4 (code_bug): the code evaluated at the failing input — a command
submission whose generation task would resolve with the URL
"https://example.com". The call rejects at line 32 before any task can
start, the stored URL stays `none` and the transcript stays empty: the
claimed round trip (URL stored, one System entry appended) never happens. -/
theorem C4_failing_trace :
    (handleSendMessageStrict (TaskOutcome.success (some "https://example.com"))
        initialState "create website generate website")
      = (initialState,
          SubmitResult.rejected (JsError.referenceError "isWebsiteGenerationRequest")) ∧
    initialState.generatedWebsiteUrl = none ∧
    initialState.messages = ([] : List String) := by
  decide

/-- C5 (code_bug): the code evaluated at the failing input — a command
submission whose generation task would reject. The call rejects at line 32
before the try block, so the task never runs, the catch clause — the only
`console.error` in the module — is unreachable and nothing is logged: the
error count stays zero instead of the claimed exactly-once log, and the
rejection escapes to the caller instead of being caught. -/
theorem C5_failing_trace :
    (handleSendMessageStrict TaskOutcome.failure initialState
        "create website generate website")
      = (initialState,
          SubmitResult.rejected (JsError.referenceError "isWebsiteGenerationRequest")) ∧
    initialState.errorLogs = 0 := by
  decide

/-- C6 (amended): submitting a text the classifier rejects is a complete
no-op: the early return fires before the try block, no entry is appended
(the transcript, like every other component of the state, is unchanged) and
the task is not invoked. -/
theorem C6_noncommand_noop (task : TaskOutcome) (s : AppState) (t : String)
    (h : isWebsiteGenerationRequest t = false) :
    handleSendMessage task s t = (s, false) := by
  simp [handleSendMessage, submitPhase1, h]

/-- C6 counterexample: submitting "hello" leaves the transcript with zero
entries, not the one User entry the claim says is appended. -/
theorem C6_counterexample :
    isWebsiteGenerationRequest "hello" = false ∧
    ((handleSendMessage generateWebsiteAsync initialState "hello").1).messages.length
      = 0 := by
  decide

/-- C6 witness: the theorem applied at the text "hello". -/
theorem C6_witness :
    isWebsiteGenerationRequest "hello" = false ∧
    handleSendMessage TaskOutcome.failure initialState "hello" = (initialState, false) :=
  ⟨by decide, C6_noncommand_noop TaskOutcome.failure initialState "hello" (by decide)⟩

theorem stepOpStrict_fixed (s : AppState) (op : Op) : stepOpStrict s op = s := by
  cases op with
  | submit t task =>
      have h : inScope scopeAtLine32 "isWebsiteGenerationRequest" = false := by decide
      simp [stepOpStrict, handleSendMessageStrict, h]
  | toggle =>
      have h : inScope scopeAtLine28 "speech" = false := by decide
      simp [stepOpStrict, toggleListeningStrict, h]

theorem runOpsStrict_fixed (ops : List Op) : ∀ s : AppState, runOpsStrict s ops = s := by
  induction ops with
  | nil => intro s; rfl
  | cons op ops ih =>
      intro s
      rw [show runOpsStrict s (op :: ops) = runOpsStrict (stepOpStrict s op) ops from rfl,
        stepOpStrict_fixed, ih]

/-- C7 (confirmed): at most one generation task is ever in flight per
controller instance — under the call-layer semantics every submission
rejects at line 32 before the await, so across every finite sequence of
submissions and toggles the in-flight count stays at zero and in particular
never exceeds one; no second concurrent task is ever started. -/
theorem C7_at_most_one_in_flight (ops : List Op) :
    (runOpsStrict initialState ops).inFlight ≤ 1 := by
  rw [runOpsStrict_fixed]
  decide

theorem stepOp_messages (s : AppState) (op : Op) : (stepOp s op).messages = s.messages := by
  cases op with
  | submit t task =>
      cases hb : isWebsiteGenerationRequest t with
      | false => simp [stepOp, handleSendMessage, submitPhase1, hb]
      | true =>
          cases hg : strIncludes (jsToLowerCase t) "generate website" with
          | false => simp [stepOp, handleSendMessage, submitPhase1, hb, hg]
          | true =>
              cases task <;>
                simp [stepOp, handleSendMessage, submitPhase1, submitResume, hb, hg]
  | toggle =>
      by_cases hs : s.speechAvailable <;> simp [stepOp, toggleListening, hs]

theorem runOps_messages (ops : List Op) : ∀ s : AppState,
    (runOps s ops).messages = s.messages := by
  induction ops with
  | nil => intro s; rfl
  | cons op ops ih =>
      intro s
      rw [show runOps s (op :: ops) = runOps (stepOp s op) ops from rfl, ih, stepOp_messages]

/-- C10 (confirmed): under every finite sequence of submissions and
listening toggles, the transcript stays the empty list — no operation of
the component ever calls `setMessages`, so nothing is ever appended. -/
theorem C10_transcript_empty (ops : List Op) :
    (runOps initialState ops).messages = [] := by
  rw [runOps_messages]
  rfl
